import Mathlib

/-!
Shallow embedding of `src/app.py`, a Flask endpoint that backs up a
configured list of MongoDB databases: it parses the MONGO_LIST and
GCS_BUCKET environment variables, runs `mongodump` for each entry,
uploads the archive to Google Cloud Storage, optionally posts Slack
notifications, and cleans up the temporary dump file.

Modelling choices:
- Python values parsed from JSON are the inductive `Json`.
- Environment variables are an explicit `Env` record; `os.environ.get`
  returning an unset variable is `none`.
- The wall clock (`datetime.datetime.utcnow`) is a timestamp-string
  parameter, one per processed entry.
- Behaviour of the two external systems (the `mongodump` subprocess and
  the GCS SDK) is a per-entry `EntryOutcome` parameter; the functions
  that wrap them are translated faithfully over those outcomes.
- Side effects are an explicit event trace (`List Event`) and a
  functional filesystem (`Fs`, the set of existing paths); whether the
  `os.remove` call in cleanup_temp_file raises OSError (caught and only
  printed by the source) is part of the per-entry external outcome.
- A Python exception propagating out of a function is `Except.error`;
  Flask turning an uncaught exception into a 500 error page is
  `HttpResponse.internalError`.
-/

set_option autoImplicit false

namespace MongoBackups

/-- Values producible by Python json.loads: null, booleans, numbers
(modelled as integers), strings, arrays and objects. -/
inductive Json where
  | null
  | bool (b : Bool)
  | num (n : Int)
  | str (s : String)
  | arr (elems : List Json)
  | obj (fields : List (String × Json))

/-- Python truthiness of a parsed JSON value (`bool(x)`). -/
def Json.isTruthy : Json → Bool
  | .null => false
  | .bool b => b
  | .num n => n != 0
  | .str s => s != ""
  | .arr elems => !elems.isEmpty
  | .obj fields => !fields.isEmpty

/-- Whether a value is a Python dict (only dicts support `.get`). -/
def Json.isObj : Json → Bool
  | .obj _ => true
  | _ => false

mutual
/-- Python string rendering `str(x)` of a parsed JSON value, as used by
f-strings in the source (quotes inside dict renderings are abstracted
away; no claim depends on the rendering of containers). -/
def Json.pyStr : Json → String
  | .null => "None"
  | .bool true => "True"
  | .bool false => "False"
  | .num n => toString n
  | .str s => s
  | .arr elems => "[" ++ pyStrList elems ++ "]"
  | .obj fields => "\x7b" ++ pyStrFields fields ++ "\x7d"

/-- Comma-separated rendering of a list of values. -/
def pyStrList : List Json → String
  | [] => ""
  | [j] => j.pyStr
  | j :: rest => j.pyStr ++ ", " ++ pyStrList rest

/-- Comma-separated rendering of dict fields. -/
def pyStrFields : List (String × Json) → String
  | [] => ""
  | [(k, v)] => k ++ ": " ++ v.pyStr
  | (k, v) :: rest => k ++ ": " ++ v.pyStr ++ ", " ++ pyStrFields rest
end

/-- Python `entry.get(key)` on a dict: the value, or None (here `none`)
when the key is absent. -/
def dictGet (fields : List (String × Json)) (key : String) : Option Json :=
  (fields.find? (fun kv => kv.fst == key)).map Prod.snd

/-- Truthiness of a `dict.get` result: `None` is falsy, otherwise the
truthiness of the value. -/
def pyTruthy : Option Json → Bool
  | none => false
  | some j => j.isTruthy

/-- Python `str(x)` where x may be None. -/
def pyStrOpt : Option Json → String
  | none => "None"
  | some j => j.pyStr

/-- Python f-string rendering of an optional string (an env var). -/
def optStr : Option String → String
  | none => "None"
  | some s => s

/-- Truthiness of an optional string, as in `if not webhook_url`. -/
def strTruthy : Option String → Bool
  | none => false
  | some s => s != ""

/-- The environment the module reads: MONGO_LIST, GCS_BUCKET and
SLACK_WEBHOOK_URL, plus, for each notification message, whether the
webhook POST raises a requests.RequestException. -/
structure Env where
  mongoListRaw : Option String
  gcsBucket : Option String
  slackWebhookUrl : Option String
  slackFails : String → Bool

/-- Observable external actions the endpoint performs, in order. -/
inductive Event where
  | mongodump (uri : String) (archivePath : String)
  | gcsUpload (bucket : String) (blobPath : String) (localPath : String)
  | slackPost (url : String) (message : String) (failed : Bool)
  | fileRemove (path : String)

/-- Outcome of one `subprocess.run` of mongodump. -/
inductive DumpOutcome where
  | ok
  | calledProcessError (returncode : Int)
  | timeout
  | raised (msg : String)

/-- One result of comparing a dump outcome with success. -/
def DumpOutcome.isOk : DumpOutcome → Bool
  | .ok => true
  | _ => false

/-- External behaviour for processing one entry: the mongodump outcome,
whether a failed dump still leaves a partial archive on disk, whether
the GCS upload raises (caught inside upload_to_gcs), and whether the
os.remove call of the cleanup raises OSError (caught inside
cleanup_temp_file, leaving the file in place). -/
structure EntryOutcome where
  dump : DumpOutcome
  dumpLeavesFile : Bool
  uploadExn : Option String
  removeRaises : Bool

/-- The filesystem as the set of existing paths. -/
structure Fs where
  files : List String

/-- Whether a path exists (`os.path.exists`). -/
def Fs.pathExists (fs : Fs) (p : String) : Bool := fs.files.contains p

/-- Creating a file at a path. -/
def Fs.createFile (fs : Fs) (p : String) : Fs := ⟨p :: fs.files⟩

/-- Removing a file (`os.remove`); in this model removal succeeds. -/
def Fs.removeFile (fs : Fs) (p : String) : Fs := ⟨fs.files.filter (fun q => q != p)⟩

/-- generate_backup_filename: `f"\x7bdatabase_name\x7d-\x7btimestamp\x7d.gz"`,
with the wall-clock timestamp passed as a parameter. -/
def generate_backup_filename (database_name : String) (ts : String) : String :=
  database_name ++ "-" ++ ts ++ ".gz"

/-- send_slack_notification: returns immediately when SLACK_WEBHOOK_URL
is unset or empty; otherwise posts to the webhook, catching any
requests.RequestException (which is only printed). The function always
returns None; its only observable effect is the post attempt. -/
def send_slack_notification (env : Env) (message : String) : List Event :=
  match env.slackWebhookUrl with
  | none => []
  | some url =>
    if url == "" then []
    else [Event.slackPost url message (env.slackFails message)]

/-- parse_mongo_config: missing or empty MONGO_LIST, invalid JSON, or a
non-array top level give an error; otherwise the parsed list. The result
of Python json.loads on the raw string is the `loads` parameter. -/
def parse_mongo_config (env : Env) (loads : String → Except String Json) :
    List Json × Option String :=
  match env.mongoListRaw with
  | none => ([], some "Missing MONGO_LIST env var")
  | some raw =>
    if raw == "" then ([], some "Missing MONGO_LIST env var")
    else
      match loads raw with
      | .error e => ([], some ("Invalid MONGO_LIST JSON format: " ++ e))
      | .ok (.arr elems) => (elems, none)
      | .ok _ => ([], some "MONGO_LIST must be a JSON array")

/-- create_mongodb_dump: runs
`mongodump --uri=URI --archive=OUTPUT_PATH --gzip`; returns True on
success, False on CalledProcessError or TimeoutExpired (both caught),
and re-raises any other exception. A successful run writes the archive;
a failed run leaves a partial file when the outcome says so. -/
def create_mongodb_dump (o : EntryOutcome) (uri : String) (output_path : String)
    (fs : Fs) : Except String Bool × List Event × Fs :=
  match o.dump with
  | .ok => (.ok true, [Event.mongodump uri output_path], fs.createFile output_path)
  | .calledProcessError _ =>
    (.ok false, [Event.mongodump uri output_path],
     if o.dumpLeavesFile then fs.createFile output_path else fs)
  | .timeout =>
    (.ok false, [Event.mongodump uri output_path],
     if o.dumpLeavesFile then fs.createFile output_path else fs)
  | .raised m =>
    (.error m, [Event.mongodump uri output_path],
     if o.dumpLeavesFile then fs.createFile output_path else fs)

/-- upload_to_gcs: attempts the blob upload and returns True on success;
every exception is caught and turns into False. -/
def upload_to_gcs (o : EntryOutcome) (bucket : String) (blob_path : String)
    (local_file_path : String) : Bool × List Event :=
  match o.uploadExn with
  | none => (true, [Event.gcsUpload bucket blob_path local_file_path])
  | some _ => (false, [Event.gcsUpload bucket blob_path local_file_path])

/-- cleanup_temp_file: if the file exists, attempts os.remove; an
OSError raised by the removal is caught and only printed, so the file
then survives. If the file does not exist, nothing happens. -/
def cleanup_temp_file (removeRaises : Bool) (file_path : String) (fs : Fs) :
    List Event × Fs :=
  if fs.pathExists file_path then
    ([Event.fileRemove file_path],
     if removeRaises then fs else fs.removeFile file_path)
  else ([], fs)

/-- Python `name or "<no-name>"` for the skipped-entry result. -/
def nameOrDefault (name : Option Json) : Json :=
  match name with
  | some j => if j.isTruthy then j else .str "<no-name>"
  | none => .str "<no-name>"

/-- The fields of a dict entry (empty for non-dict values). -/
def entryFields : Json → List (String × Json)
  | .obj fields => fields
  | _ => []

/-- The name string used in filenames and messages: `str` of the value
under the name key. -/
def entryNameStr (fields : List (String × Json)) : String :=
  pyStrOpt (dictGet fields "name")

/-- The uri string passed to mongodump. -/
def entryUriStr (fields : List (String × Json)) : String :=
  pyStrOpt (dictGet fields "uri")

/-- The name value placed in non-skipped results. -/
def entryNameJson (fields : List (String × Json)) : Json :=
  (dictGet fields "name").getD .null

/-- dump_path = `f"/tmp/\x7bfilename\x7d"`. -/
def dumpPath (fields : List (String × Json)) (ts : String) : String :=
  "/tmp/" ++ generate_backup_filename (entryNameStr fields) ts

/-- blob_path = `f"backups/\x7bname\x7d/\x7bfilename\x7d"`. -/
def blobPath (fields : List (String × Json)) (ts : String) : String :=
  "backups/" ++ entryNameStr fields ++ "/" ++ generate_backup_filename (entryNameStr fields) ts

/-- gcs_url = `f"gs://\x7bbucket_name\x7d/\x7bblob_path\x7d"`, reading the
module-level bucket_name. -/
def gcsUrl (env : Env) (fields : List (String × Json)) (ts : String) : String :=
  "gs://" ++ optStr env.gcsBucket ++ "/" ++ blobPath fields ts

/-- Message for a skipped entry. -/
def missingEntryMsg (entry : Json) : String :=
  "Missing name or URI for database entry: " ++ entry.pyStr

/-- Message for a failed dump. -/
def dumpFailMsg (fields : List (String × Json)) : String :=
  "Failed to create dump for " ++ entryNameStr fields

/-- Message for a failed upload. -/
def uploadFailMsg (fields : List (String × Json)) : String :=
  "Failed to upload " ++ entryNameStr fields ++ " to GCS"

/-- Message for a successful backup. -/
def successMsg (env : Env) (fields : List (String × Json)) (ts : String) : String :=
  "Backup successful: " ++ entryNameStr fields ++ " → " ++ gcsUrl env fields ts

/-- Message for an exception caught by the blanket handler. -/
def unexpectedErrorMsg (fields : List (String × Json)) (e : String) : String :=
  "Unexpected error backing up " ++ entryNameStr fields ++ ": " ++ e

/-- The AttributeError raised by `entry.get` when the entry is not a
dict; it escapes process_database_backup (the access is before the try
block). -/
def attributeErrorMsg : String :=
  "AttributeError: object has no attribute get"

/-- One result dict of process_database_backup; absent keys are `none`. -/
structure BResult where
  name : Json
  status : String
  reason : Option Json
  gcs : Option String

/-- Shared shape of every return path inside the try/except: the Slack
notification for the message, then the finally-block cleanup of the
dump file, then the result. -/
def returnWithCleanup (env : Env) (removeRaises : Bool) (msg : String) (r : BResult)
    (dump_path : String) (ev : List Event) (fs : Fs) :
    Except String BResult × List Event × Fs :=
  (.ok r,
   ev ++ send_slack_notification env msg ++ (cleanup_temp_file removeRaises dump_path fs).1,
   (cleanup_temp_file removeRaises dump_path fs).2)

/-- Continuation after the upload attempt inside the try block: an
upload failure notifies Slack and returns the error result, success
notifies Slack and returns the ok result; the finally block cleans up
either way. -/
def afterUpload (env : Env) (removeRaises : Bool) (ts : String)
    (fields : List (String × Json)) (ev1 : List Event) (fs1 : Fs) :
    Bool × List Event → Except String BResult × List Event × Fs
  | (false, ev2) =>
    returnWithCleanup env removeRaises (uploadFailMsg fields)
      ⟨entryNameJson fields, "error", some (.str (uploadFailMsg fields)), none⟩
      (dumpPath fields ts) (ev1 ++ ev2) fs1
  | (true, ev2) =>
    returnWithCleanup env removeRaises (successMsg env fields ts)
      ⟨entryNameJson fields, "ok", none, some (gcsUrl env fields ts)⟩
      (dumpPath fields ts) (ev1 ++ ev2) fs1

/-- Continuation after the dump step inside the try block: a re-raised
dump exception is caught by the blanket except handler, a False dump
result notifies Slack and returns the dump-failure result, and a True
result proceeds to the upload; the finally block cleans up on every
path. -/
def afterDump (env : Env) (o : EntryOutcome) (ts : String)
    (fields : List (String × Json)) (bucket : String) :
    Except String Bool × List Event × Fs → Except String BResult × List Event × Fs
  | (.error e, ev1, fs1) =>
    returnWithCleanup env o.removeRaises (unexpectedErrorMsg fields e)
      ⟨entryNameJson fields, "error", some (.str (unexpectedErrorMsg fields e)), none⟩
      (dumpPath fields ts) ev1 fs1
  | (.ok false, ev1, fs1) =>
    returnWithCleanup env o.removeRaises (dumpFailMsg fields)
      ⟨entryNameJson fields, "error", some (.str (dumpFailMsg fields)), none⟩
      (dumpPath fields ts) ev1 fs1
  | (.ok true, ev1, fs1) =>
    afterUpload env o.removeRaises ts fields ev1 fs1
      (upload_to_gcs o bucket (blobPath fields ts) (dumpPath fields ts))

/-- process_database_backup for one entry. Reading the name and uri keys
happens before the try block, so a non-dict entry raises AttributeError
out of the function; a falsy name or uri notifies Slack and returns the
skipped result. Otherwise the try block runs the dump and then the
upload. -/
def process_database_backup (env : Env) (o : EntryOutcome) (ts : String)
    (entry : Json) (bucket : String) (fs : Fs) :
    Except String BResult × List Event × Fs :=
  match entry with
  | .obj fields =>
    if !(pyTruthy (dictGet fields "name")) || !(pyTruthy (dictGet fields "uri")) then
      (.ok ⟨nameOrDefault (dictGet fields "name"), "skipped",
            some (.str "missing name or uri"), none⟩,
       send_slack_notification env (missingEntryMsg (.obj fields)), fs)
    else
      afterDump env o ts fields bucket
        (create_mongodb_dump o (entryUriStr fields) (dumpPath fields ts) fs)
  | _ => (.error attributeErrorMsg, [], fs)

/-- The HTTP response of the endpoint: jsonify of the results (200), a
plain-text body with a status code, or the Flask 500 error page for an
uncaught exception. -/
inductive HttpResponse where
  | json (results : List BResult)
  | text (body : String) (status : Nat)
  | internalError (msg : String)

/-- The results loop of backup_all_databases: process each entry in
order, threading the filesystem; an uncaught exception aborts the loop
and propagates. The index selects each entry her outcome and timestamp. -/
def runBackups (env : Env) (outcomes : Nat → EntryOutcome) (tss : Nat → String)
    (bucket : String) : List Json → Nat → Fs →
    Except String (List BResult) × List Event × Fs
  | [], _, fs => (.ok [], [], fs)
  | entry :: rest, i, fs =>
    match process_database_backup env (outcomes i) (tss i) entry bucket fs with
    | (.error m, evs, fs1) => (.error m, evs, fs1)
    | (.ok r, evs, fs1) =>
      match runBackups env outcomes tss bucket rest (i + 1) fs1 with
      | (.ok rs, evs2, fs2) => (.ok (r :: rs), evs ++ evs2, fs2)
      | (.error m, evs2, fs2) => (.error m, evs ++ evs2, fs2)

/-- backup_all_databases: parse the config (500 on error), check
GCS_BUCKET (500 when falsy), then process every entry and jsonify the
results; each 500 path notifies Slack first. -/
def backup_all_databases (env : Env) (loads : String → Except String Json)
    (outcomes : Nat → EntryOutcome) (tss : Nat → String) (fs : Fs) :
    HttpResponse × List Event × Fs :=
  match parse_mongo_config env loads with
  | (_, some err) => (.text err 500, send_slack_notification env err, fs)
  | (mongo_list, none) =>
    if strTruthy env.gcsBucket then
      match runBackups env outcomes tss (optStr env.gcsBucket) mongo_list 0 fs with
      | (.ok results, evs, fs1) => (.json results, evs, fs1)
      | (.error m, evs, fs1) => (.internalError m, evs, fs1)
    else
      (.text "Missing GCS_BUCKET env var" 500,
       send_slack_notification env "Missing GCS_BUCKET env var", fs)

/-! Derived characterizations used by the theorems. -/

/-- Whether an entry has truthy name and uri keys (the guard that the
skip branch negates). -/
def entryPasses (e : Json) : Bool :=
  pyTruthy (dictGet (entryFields e) "name") && pyTruthy (dictGet (entryFields e) "uri")

/-- The result dict process_database_backup returns for a dict entry, as
a pure function of the environment, the external outcome, the timestamp
and the entry. -/
def entryResult (env : Env) (o : EntryOutcome) (ts : String) (entry : Json) : BResult :=
  match entry with
  | .obj fields =>
    if !(pyTruthy (dictGet fields "name")) || !(pyTruthy (dictGet fields "uri")) then
      ⟨nameOrDefault (dictGet fields "name"), "skipped",
       some (.str "missing name or uri"), none⟩
    else
      match o.dump with
      | .raised e => ⟨entryNameJson fields, "error",
                      some (.str (unexpectedErrorMsg fields e)), none⟩
      | .calledProcessError _ => ⟨entryNameJson fields, "error",
                                  some (.str (dumpFailMsg fields)), none⟩
      | .timeout => ⟨entryNameJson fields, "error",
                     some (.str (dumpFailMsg fields)), none⟩
      | .ok =>
        match o.uploadExn with
        | some _ => ⟨entryNameJson fields, "error",
                     some (.str (uploadFailMsg fields)), none⟩
        | none => ⟨entryNameJson fields, "ok", none, some (gcsUrl env fields ts)⟩
  | _ => ⟨.null, "", none, none⟩

/-- Map with an explicit starting index, mirroring how the loop pairs
each entry with its outcome and timestamp. -/
def mapIdxFrom {α : Type} (f : Nat → Json → α) : Nat → List Json → List α
  | _, [] => []
  | i, e :: rest => f i e :: mapIdxFrom f (i + 1) rest

/-- Event classifiers. -/
def Event.isMongodump : Event → Bool
  | .mongodump _ _ => true
  | _ => false

/-- Whether an event is a GCS upload attempt. -/
def Event.isUpload : Event → Bool
  | .gcsUpload _ _ _ => true
  | _ => false

/-- Whether an event is a Slack post attempt. -/
def Event.isSlack : Event → Bool
  | .slackPost _ _ _ => true
  | _ => false

/-- The mongodump invocations the loop performs from a given index on:
one per entry with truthy name and uri, with that entry uri and dump
path, and none for an entry that fails the check. -/
def dumpEventsIdx (tss : Nat → String) : Nat → List Json → List Event
  | _, [] => []
  | i, e :: rest =>
    (if entryPasses e then
      [Event.mongodump (entryUriStr (entryFields e)) (dumpPath (entryFields e) (tss i))]
     else []) ++ dumpEventsIdx tss (i + 1) rest

/-! Concrete inputs for witnesses and counterexamples. -/

/-- Concrete entry with truthy name and uri. -/
def wEntryFields : List (String × Json) :=
  [("name", Json.str "db1"), ("uri", Json.str "mongodb://host/db1")]

/-- Environment with MONGO_LIST and GCS_BUCKET set and no webhook. -/
def wEnvA : Env := ⟨some "x", some "bkt", none, fun _ => false⟩

/-- Environment identical to wEnvA apart from the webhook configuration
and failing notification posts. -/
def wEnvB : Env := ⟨some "x", some "bkt", some "https://hooks.example/T0", fun _ => true⟩

/-- Environment with MONGO_LIST unset. -/
def wEnvNoList : Env := ⟨none, some "bkt", none, fun _ => false⟩

/-- Environment with the webhook configured and MONGO_LIST unset. -/
def wEnvC : Env := ⟨none, some "bkt", some "https://hooks.example/T0", fun _ => false⟩

/-- External outcome where dump, upload and cleanup all succeed. -/
def wOutcome : EntryOutcome := ⟨.ok, false, none, false⟩

/-- External outcome where everything succeeds except the os.remove of
the cleanup, which raises a caught OSError. -/
def wOutcomeRemoveFails : EntryOutcome := ⟨.ok, false, none, true⟩

/-- Outcome assignment: every entry succeeds. -/
def wOutcomes : Nat → EntryOutcome := fun _ => wOutcome

/-- Timestamp assignment. -/
def wTss : Nat → String := fun _ => "20260101000000"

/-- Empty initial filesystem. -/
def wFs : Fs := ⟨[]⟩

/-- json.loads behaviour: one well-formed entry. -/
def wLoads : String → Except String Json := fun _ => .ok (.arr [.obj wEntryFields])

/-- Outcome where the mongodump subprocess exits nonzero and leaves a
partial archive behind. -/
def wOutcomeFailDump : EntryOutcome := ⟨.calledProcessError 1, true, none, false⟩

/-- Outcome assignment: every dump fails. -/
def wOutcomesFailDump : Nat → EntryOutcome := fun _ => wOutcomeFailDump

/-- json.loads behaviour: a valid JSON array whose entry is not an object. -/
def wLoadsNonDict : String → Except String Json := fun _ => .ok (.arr [.num 1])

/-- json.loads behaviour: a non-object entry between two well-formed ones. -/
def wLoadsMixed : String → Except String Json :=
  fun _ => .ok (.arr [.obj wEntryFields, .num 1, .obj wEntryFields])

/-- json.loads behaviour: one entry with no keys at all. -/
def wLoadsEmptyObj : String → Except String Json := fun _ => .ok (.arr [.obj []])

/-- json.loads behaviour: a passing entry followed by a skipped one. -/
def wLoadsPassSkip : String → Except String Json :=
  fun _ => .ok (.arr [.obj wEntryFields, .obj []])


theorem mapIdxFrom_length {α : Type} (f : Nat → Json → α) (i : Nat) (xs : List Json) :
    (mapIdxFrom f i xs).length = xs.length := by
  induction xs generalizing i with
  | nil => rfl
  | cons e rest ih => simp [mapIdxFrom, ih]

theorem mapIdxFrom_get {α : Type} (f : Nat → Json → α) (i : Nat) (xs : List Json)
    (j : Nat) (hj : j < xs.length) (hj2 : j < (mapIdxFrom f i xs).length) :
    (mapIdxFrom f i xs).get ⟨j, hj2⟩ = f (i + j) (xs.get ⟨j, hj⟩) := by
  induction xs generalizing i j with
  | nil => exact absurd hj (Nat.not_lt_zero j)
  | cons e rest ih =>
    cases j with
    | zero => rfl
    | succ j =>
      have hr : j < rest.length := Nat.lt_of_succ_lt_succ hj
      have hr2 : j < (mapIdxFrom f (i + 1) rest).length := by
        rw [mapIdxFrom_length]; exact hr
      have heq : i + (j + 1) = i + 1 + j := by omega
      have := ih (i + 1) j hr hr2
      simp only [mapIdxFrom, List.get_cons_succ, heq]
      exact this

set_option maxRecDepth 8192 in
theorem process_obj_fst (env : Env) (o : EntryOutcome) (ts : String)
    (fields : List (String × Json)) (bucket : String) (fs : Fs) :
    (process_database_backup env o ts (.obj fields) bucket fs).1 =
      .ok (entryResult env o ts (.obj fields)) := by
  by_cases hc : (!(pyTruthy (dictGet fields "name")) || !(pyTruthy (dictGet fields "uri"))) = true
  · simp only [process_database_backup, entryResult, hc, if_true]
  · cases hd : o.dump <;> cases hu : o.uploadExn <;>
      simp [process_database_backup, entryResult, hc, hd, hu, create_mongodb_dump,
        afterDump, afterUpload, upload_to_gcs, returnWithCleanup]

theorem isObj_exists (e : Json) (h : e.isObj = true) : ∃ fields, e = Json.obj fields := by
  cases e <;> first | exact ⟨_, rfl⟩ | exact Bool.noConfusion h

theorem send_slack_mem (env : Env) (m : String) (ev : Event)
    (h : ev ∈ send_slack_notification env m) : ev.isSlack = true := by
  cases henv : env.slackWebhookUrl with
  | none => simp [send_slack_notification, henv] at h
  | some url =>
    by_cases hu : (url == "") = true
    · simp [send_slack_notification, henv, hu] at h
    · simp [send_slack_notification, henv, hu] at h
      rw [h]; rfl

theorem send_slack_truthy (env : Env) (m : String)
    (h : strTruthy env.slackWebhookUrl = true) :
    ∃ url, send_slack_notification env m = [Event.slackPost url m (env.slackFails m)] := by
  cases henv : env.slackWebhookUrl with
  | none => rw [henv] at h; exact absurd h (by simp [strTruthy])
  | some url =>
    have h2 : (url == "") = false := by
      have hb : (url != "") = true := by
        rw [henv] at h; simpa [strTruthy] using h
      simpa [bne] using hb
    exact ⟨url, by simp [send_slack_notification, henv, h2]⟩

theorem send_slack_falsy (env : Env) (m : String)
    (h : strTruthy env.slackWebhookUrl = false) :
    send_slack_notification env m = [] := by
  cases henv : env.slackWebhookUrl with
  | none => simp [send_slack_notification, henv]
  | some url =>
    have h2 : (url == "") = true := by
      have hb : (url != "") = false := by
        rw [henv] at h; simpa [strTruthy] using h
      simpa [bne] using hb
    simp [send_slack_notification, henv, h2]

theorem cleanup_mem (rr : Bool) (path : String) (fs : Fs) (ev : Event)
    (h : ev ∈ (cleanup_temp_file rr path fs).1) : ev = Event.fileRemove path := by
  by_cases hex : fs.pathExists path = true
  · simp [cleanup_temp_file, hex] at h; exact h
  · simp [cleanup_temp_file, hex] at h

theorem removeFile_pathExists (fs : Fs) (p : String) :
    (fs.removeFile p).pathExists p = false := by
  simp [Fs.removeFile, Fs.pathExists]

theorem cleanup_pathExists (path : String) (fs : Fs) :
    ((cleanup_temp_file false path fs).2).pathExists path = false := by
  unfold cleanup_temp_file
  by_cases hex : fs.pathExists path = true
  · rw [if_pos hex]
    simp only [Bool.false_eq_true, if_false]
    exact removeFile_pathExists fs path
  · rw [if_neg hex]
    simpa using hex

theorem gcsUrl_env (env1 env2 : Env) (h : env1.gcsBucket = env2.gcsBucket)
    (fields : List (String × Json)) (ts : String) :
    gcsUrl env1 fields ts = gcsUrl env2 fields ts := by
  unfold gcsUrl; rw [h]

theorem entryResult_env (env1 env2 : Env) (h : env1.gcsBucket = env2.gcsBucket)
    (o : EntryOutcome) (ts : String) (entry : Json) :
    entryResult env1 o ts entry = entryResult env2 o ts entry := by
  cases entry with
  | obj fields =>
    by_cases hc : (!(pyTruthy (dictGet fields "name")) || !(pyTruthy (dictGet fields "uri"))) = true
    · simp only [entryResult, hc, if_true]
    · cases hd : o.dump <;> cases hu : o.uploadExn <;>
        simp [entryResult, hc, hd, hu, gcsUrl_env env1 env2 h fields ts]
  | null => rfl
  | bool b => rfl
  | num n => rfl
  | str s => rfl
  | arr elems => rfl

theorem process_fst_env (env1 env2 : Env) (h : env1.gcsBucket = env2.gcsBucket)
    (o : EntryOutcome) (ts : String) (entry : Json) (bucket : String) (fs : Fs) :
    (process_database_backup env1 o ts entry bucket fs).1 =
      (process_database_backup env2 o ts entry bucket fs).1 := by
  cases entry with
  | obj fields =>
    rw [process_obj_fst, process_obj_fst, entryResult_env env1 env2 h]
  | null => rfl
  | bool b => rfl
  | num n => rfl
  | str s => rfl
  | arr elems => rfl

theorem process_fs_env (env1 env2 : Env) (o : EntryOutcome) (ts : String)
    (entry : Json) (bucket : String) (fs : Fs) :
    (process_database_backup env1 o ts entry bucket fs).2.2 =
      (process_database_backup env2 o ts entry bucket fs).2.2 := by
  cases entry with
  | obj fields =>
    by_cases hc : (!(pyTruthy (dictGet fields "name")) || !(pyTruthy (dictGet fields "uri"))) = true
    · simp only [process_database_backup, hc, if_true]
    · cases hd : o.dump <;> cases hu : o.uploadExn <;>
        simp [process_database_backup, hc, hd, hu, create_mongodb_dump, afterDump,
          afterUpload, upload_to_gcs, returnWithCleanup]
  | null => rfl
  | bool b => rfl
  | num n => rfl
  | str s => rfl
  | arr elems => rfl

theorem isSlack_not_mongodump (ev : Event) (h : ev.isSlack = true) :
    ev.isMongodump = false := by
  cases ev <;> simp_all [Event.isSlack, Event.isMongodump]

theorem isSlack_not_upload (ev : Event) (h : ev.isSlack = true) :
    ev.isUpload = false := by
  cases ev <;> simp_all [Event.isSlack, Event.isUpload]

theorem entryPasses_cond (fields : List (String × Json))
    (h : entryPasses (.obj fields) = true) :
    (!(pyTruthy (dictGet fields "name")) || !(pyTruthy (dictGet fields "uri"))) = false := by
  simp only [entryPasses, entryFields, Bool.and_eq_true] at h
  simp [h.1, h.2]

theorem process_skip_eq (env : Env) (o : EntryOutcome) (ts : String)
    (fields : List (String × Json)) (bucket : String) (fs : Fs)
    (hc : (!(pyTruthy (dictGet fields "name")) || !(pyTruthy (dictGet fields "uri"))) = true) :
    process_database_backup env o ts (.obj fields) bucket fs =
      (.ok ⟨nameOrDefault (dictGet fields "name"), "skipped",
            some (.str "missing name or uri"), none⟩,
       send_slack_notification env (missingEntryMsg (.obj fields)), fs) := by
  simp only [process_database_backup, hc, if_true]

theorem process_trace_ok (env : Env) (o : EntryOutcome) (ts : String)
    (fields : List (String × Json)) (bucket : String) (fs : Fs)
    (hc : (!(pyTruthy (dictGet fields "name")) || !(pyTruthy (dictGet fields "uri"))) = false)
    (hd : o.dump = DumpOutcome.ok) :
    ∃ msg fs1, (process_database_backup env o ts (.obj fields) bucket fs).2.1 =
      Event.mongodump (entryUriStr fields) (dumpPath fields ts) ::
      Event.gcsUpload bucket (blobPath fields ts) (dumpPath fields ts) ::
      (send_slack_notification env msg ++
        (cleanup_temp_file o.removeRaises (dumpPath fields ts) fs1).1) := by
  cases hu : o.uploadExn with
  | none =>
    exact ⟨successMsg env fields ts, fs.createFile (dumpPath fields ts),
      by simp [process_database_backup, hc, hd, hu, create_mongodb_dump,
        afterDump, afterUpload, upload_to_gcs, returnWithCleanup]⟩
  | some e =>
    exact ⟨uploadFailMsg fields, fs.createFile (dumpPath fields ts),
      by simp [process_database_backup, hc, hd, hu, create_mongodb_dump,
        afterDump, afterUpload, upload_to_gcs, returnWithCleanup]⟩

theorem process_trace_notok (env : Env) (o : EntryOutcome) (ts : String)
    (fields : List (String × Json)) (bucket : String) (fs : Fs)
    (hc : (!(pyTruthy (dictGet fields "name")) || !(pyTruthy (dictGet fields "uri"))) = false)
    (hd : o.dump.isOk = false) :
    ∃ msg fs1, (process_database_backup env o ts (.obj fields) bucket fs).2.1 =
      Event.mongodump (entryUriStr fields) (dumpPath fields ts) ::
      (send_slack_notification env msg ++
        (cleanup_temp_file o.removeRaises (dumpPath fields ts) fs1).1) := by
  cases hdc : o.dump with
  | ok => rw [hdc] at hd; exact Bool.noConfusion hd
  | calledProcessError rc =>
    exact ⟨dumpFailMsg fields,
      if o.dumpLeavesFile then fs.createFile (dumpPath fields ts) else fs,
      by simp [process_database_backup, hc, hdc, create_mongodb_dump,
        afterDump, returnWithCleanup]⟩
  | timeout =>
    exact ⟨dumpFailMsg fields,
      if o.dumpLeavesFile then fs.createFile (dumpPath fields ts) else fs,
      by simp [process_database_backup, hc, hdc, create_mongodb_dump,
        afterDump, returnWithCleanup]⟩
  | raised m =>
    exact ⟨unexpectedErrorMsg fields m,
      if o.dumpLeavesFile then fs.createFile (dumpPath fields ts) else fs,
      by simp [process_database_backup, hc, hdc, create_mongodb_dump,
        afterDump, returnWithCleanup]⟩

theorem process_pass_fs (env : Env) (o : EntryOutcome) (ts : String)
    (fields : List (String × Json)) (bucket : String) (fs : Fs)
    (hc : (!(pyTruthy (dictGet fields "name")) || !(pyTruthy (dictGet fields "uri"))) = false)
    (hrm : o.removeRaises = false) :
    ((process_database_backup env o ts (.obj fields) bucket fs).2.2).pathExists
      (dumpPath fields ts) = false := by
  cases hd : o.dump <;> cases hu : o.uploadExn <;>
    simp [process_database_backup, hc, hd, hu, hrm, create_mongodb_dump, afterDump,
      afterUpload, upload_to_gcs, returnWithCleanup] <;>
    exact cleanup_pathExists _ _

theorem process_pass_cleanup_runs (env : Env) (o : EntryOutcome) (ts : String)
    (fields : List (String × Json)) (bucket : String) (fs : Fs)
    (hc : (!(pyTruthy (dictGet fields "name")) || !(pyTruthy (dictGet fields "uri"))) = false) :
    ∃ fs1, (process_database_backup env o ts (.obj fields) bucket fs).2.2 =
      (cleanup_temp_file o.removeRaises (dumpPath fields ts) fs1).2 := by
  cases hd : o.dump with
  | ok =>
    cases hu : o.uploadExn <;>
      exact ⟨fs.createFile (dumpPath fields ts),
        by simp [process_database_backup, hc, hd, hu, create_mongodb_dump,
          afterDump, afterUpload, upload_to_gcs, returnWithCleanup]⟩
  | calledProcessError rc =>
    exact ⟨if o.dumpLeavesFile then fs.createFile (dumpPath fields ts) else fs,
      by simp [process_database_backup, hc, hd, create_mongodb_dump,
        afterDump, returnWithCleanup]⟩
  | timeout =>
    exact ⟨if o.dumpLeavesFile then fs.createFile (dumpPath fields ts) else fs,
      by simp [process_database_backup, hc, hd, create_mongodb_dump,
        afterDump, returnWithCleanup]⟩
  | raised m =>
    exact ⟨if o.dumpLeavesFile then fs.createFile (dumpPath fields ts) else fs,
      by simp [process_database_backup, hc, hd, create_mongodb_dump,
        afterDump, returnWithCleanup]⟩

theorem send_slack_filter_mongodump (env : Env) (m : String) :
    (send_slack_notification env m).filter Event.isMongodump = [] :=
  List.filter_eq_nil_iff.mpr (fun ev hev => by
    rw [isSlack_not_mongodump ev (send_slack_mem env m ev hev)]
    exact Bool.false_ne_true)

theorem cleanup_filter_mongodump (rr : Bool) (p : String) (fs : Fs) :
    ((cleanup_temp_file rr p fs).1).filter Event.isMongodump = [] :=
  List.filter_eq_nil_iff.mpr (fun ev hev => by
    rw [cleanup_mem rr p fs ev hev]
    exact Bool.false_ne_true)

theorem cleanup_countP_slack (rr : Bool) (p : String) (fs : Fs) :
    ((cleanup_temp_file rr p fs).1).countP Event.isSlack = 0 :=
  List.countP_eq_zero.mpr (fun ev hev => by
    rw [cleanup_mem rr p fs ev hev]
    exact Bool.false_ne_true)

theorem send_slack_countP_slack (env : Env) (m : String)
    (h : strTruthy env.slackWebhookUrl = true) :
    (send_slack_notification env m).countP Event.isSlack = 1 := by
  obtain ⟨url, heq⟩ := send_slack_truthy env m h
  rw [heq]
  simp [Event.isSlack, List.countP_cons]

theorem process_pass_filter_mongodump (env : Env) (o : EntryOutcome) (ts : String)
    (fields : List (String × Json)) (bucket : String) (fs : Fs)
    (hc : (!(pyTruthy (dictGet fields "name")) || !(pyTruthy (dictGet fields "uri"))) = false) :
    (process_database_backup env o ts (.obj fields) bucket fs).2.1.filter Event.isMongodump =
      [Event.mongodump (entryUriStr fields) (dumpPath fields ts)] := by
  by_cases hd : o.dump.isOk = true
  · have hdo : o.dump = DumpOutcome.ok := by
      cases hdc : o.dump <;> rw [hdc] at hd <;> first | rfl | exact Bool.noConfusion hd
    obtain ⟨msg, fs1, htr⟩ := process_trace_ok env o ts fields bucket fs hc hdo
    rw [htr]
    simp [List.filter_append, Event.isMongodump,
      send_slack_filter_mongodump, cleanup_filter_mongodump]
  · have hdf : o.dump.isOk = false := by simpa using hd
    obtain ⟨msg, fs1, htr⟩ := process_trace_notok env o ts fields bucket fs hc hdf
    rw [htr]
    simp [List.filter_append, Event.isMongodump,
      send_slack_filter_mongodump, cleanup_filter_mongodump]

theorem process_obj_countP_slack (env : Env) (o : EntryOutcome) (ts : String)
    (fields : List (String × Json)) (bucket : String) (fs : Fs)
    (hw : strTruthy env.slackWebhookUrl = true) :
    (process_database_backup env o ts (.obj fields) bucket fs).2.1.countP Event.isSlack = 1 := by
  by_cases hc : (!(pyTruthy (dictGet fields "name")) || !(pyTruthy (dictGet fields "uri"))) = true
  · rw [process_skip_eq env o ts fields bucket fs hc]
    exact send_slack_countP_slack env _ hw
  · have hcf : (!(pyTruthy (dictGet fields "name")) || !(pyTruthy (dictGet fields "uri"))) = false := by
      simpa using hc
    by_cases hd : o.dump.isOk = true
    · have hdo : o.dump = DumpOutcome.ok := by
        cases hdc : o.dump <;> rw [hdc] at hd <;> first | rfl | exact Bool.noConfusion hd
      obtain ⟨msg, fs1, htr⟩ := process_trace_ok env o ts fields bucket fs hcf hdo
      rw [htr]
      simp [List.countP_cons, List.countP_append, Event.isSlack,
        send_slack_countP_slack env msg hw, cleanup_countP_slack]
    · have hdf : o.dump.isOk = false := by simpa using hd
      obtain ⟨msg, fs1, htr⟩ := process_trace_notok env o ts fields bucket fs hcf hdf
      rw [htr]
      simp [List.countP_cons, List.countP_append, Event.isSlack,
        send_slack_countP_slack env msg hw, cleanup_countP_slack]

theorem runBackups_obj (env : Env) (outcomes : Nat → EntryOutcome) (tss : Nat → String)
    (bucket : String) (xs : List Json) (hobj : ∀ e ∈ xs, e.isObj = true)
    (i : Nat) (fs : Fs) :
    (runBackups env outcomes tss bucket xs i fs).1 =
      .ok (mapIdxFrom (fun j e => entryResult env (outcomes j) (tss j) e) i xs) := by
  induction xs generalizing i fs with
  | nil => rfl
  | cons e rest ih =>
    obtain ⟨fields, rfl⟩ := isObj_exists e (hobj e (List.mem_cons_self e rest))
    have hrest : ∀ e2 ∈ rest, e2.isObj = true :=
      fun e2 h2 => hobj e2 (List.mem_cons_of_mem _ h2)
    have h1 := process_obj_fst env (outcomes i) (tss i) fields bucket fs
    rcases hp : process_database_backup env (outcomes i) (tss i) (.obj fields) bucket fs
      with ⟨r, evs, fs1⟩
    rw [hp] at h1
    simp only at h1
    subst h1
    have h2 := ih hrest (i + 1) fs1
    rcases hr : runBackups env outcomes tss bucket rest (i + 1) fs1 with ⟨res, evs2, fs2⟩
    rw [hr] at h2
    simp only at h2
    subst h2
    simp [runBackups, hp, hr, mapIdxFrom]

theorem runBackups_fst_env (env1 env2 : Env) (hg : env1.gcsBucket = env2.gcsBucket)
    (outcomes : Nat → EntryOutcome) (tss : Nat → String) (bucket : String)
    (xs : List Json) (i : Nat) (fs : Fs) :
    (runBackups env1 outcomes tss bucket xs i fs).1 =
      (runBackups env2 outcomes tss bucket xs i fs).1 := by
  induction xs generalizing i fs with
  | nil => rfl
  | cons e rest ih =>
    have h1 := process_fst_env env1 env2 hg (outcomes i) (tss i) e bucket fs
    have h2 := process_fs_env env1 env2 (outcomes i) (tss i) e bucket fs
    rcases hp1 : process_database_backup env1 (outcomes i) (tss i) e bucket fs
      with ⟨r1, evs1, fs1⟩
    rcases hp2 : process_database_backup env2 (outcomes i) (tss i) e bucket fs
      with ⟨r2, evs2, fs2⟩
    rw [hp1, hp2] at h1 h2
    simp only at h1 h2
    subst h1
    subst h2
    cases r1 with
    | error m => simp [runBackups, hp1, hp2]
    | ok r =>
      have h3 := ih (i + 1) fs1
      rcases hr1 : runBackups env1 outcomes tss bucket rest (i + 1) fs1
        with ⟨res1, evs1b, fsb1⟩
      rcases hr2 : runBackups env2 outcomes tss bucket rest (i + 1) fs1
        with ⟨res2, evs2b, fsb2⟩
      rw [hr1, hr2] at h3
      simp only at h3
      subst h3
      cases res1 <;> simp [runBackups, hp1, hp2, hr1, hr2]

theorem entryPasses_cond_neg (fields : List (String × Json))
    (h : entryPasses (.obj fields) = false) :
    (!(pyTruthy (dictGet fields "name")) || !(pyTruthy (dictGet fields "uri"))) = true := by
  cases ha : pyTruthy (dictGet fields "name") <;>
    cases hb : pyTruthy (dictGet fields "uri") <;>
    simp_all [entryPasses, entryFields]

theorem process_skip_filter_mongodump (env : Env) (o : EntryOutcome) (ts : String)
    (fields : List (String × Json)) (bucket : String) (fs : Fs)
    (hc : (!(pyTruthy (dictGet fields "name")) || !(pyTruthy (dictGet fields "uri"))) = true) :
    (process_database_backup env o ts (.obj fields) bucket fs).2.1.filter
      Event.isMongodump = [] := by
  rw [process_skip_eq env o ts fields bucket fs hc]
  exact send_slack_filter_mongodump env _

theorem dumpEventsIdx_length (tss : Nat → String) (i : Nat) (xs : List Json) :
    (dumpEventsIdx tss i xs).length = xs.countP entryPasses := by
  induction xs generalizing i with
  | nil => rfl
  | cons e rest ih =>
    by_cases hpass : entryPasses e = true
    · simp [dumpEventsIdx, hpass, List.countP_cons, ih]
    · have hpf : entryPasses e = false := by simpa using hpass
      simp [dumpEventsIdx, hpf, List.countP_cons, ih]

theorem runBackups_filter_mongodump (env : Env) (outcomes : Nat → EntryOutcome)
    (tss : Nat → String) (bucket : String) (xs : List Json)
    (hobj : ∀ e ∈ xs, e.isObj = true) (i : Nat) (fs : Fs) :
    (runBackups env outcomes tss bucket xs i fs).2.1.filter Event.isMongodump =
      dumpEventsIdx tss i xs := by
  induction xs generalizing i fs with
  | nil => rfl
  | cons e rest ih =>
    obtain ⟨fields, rfl⟩ := isObj_exists e (hobj e (List.mem_cons_self e rest))
    have hrest : ∀ e2 ∈ rest, e2.isObj = true :=
      fun e2 h2 => hobj e2 (List.mem_cons_of_mem _ h2)
    have h1 := process_obj_fst env (outcomes i) (tss i) fields bucket fs
    rcases hp : process_database_backup env (outcomes i) (tss i) (.obj fields) bucket fs
      with ⟨r, evs, fs1⟩
    rw [hp] at h1
    simp only at h1
    subst h1
    have h2 := ih hrest (i + 1) fs1
    rcases hr : runBackups env outcomes tss bucket rest (i + 1) fs1 with ⟨res, evs2, fs2⟩
    rw [hr] at h2
    simp only at h2
    by_cases hpass : entryPasses (Json.obj fields) = true
    · have hcf := entryPasses_cond fields hpass
      have hflt := process_pass_filter_mongodump env (outcomes i) (tss i) fields bucket fs hcf
      rw [hp] at hflt
      simp only at hflt
      cases res <;>
        simp [runBackups, hp, hr, dumpEventsIdx, hpass, List.filter_append, hflt, h2,
          entryFields]
    · have hpf : entryPasses (Json.obj fields) = false := by simpa using hpass
      have hc := entryPasses_cond_neg fields hpf
      have hflt := process_skip_filter_mongodump env (outcomes i) (tss i) fields bucket fs hc
      rw [hp] at hflt
      simp only at hflt
      cases res <;>
        simp [runBackups, hp, hr, dumpEventsIdx, hpf, List.filter_append, hflt, h2,
          entryFields]

theorem backup_fst_env (env1 env2 : Env) (hm : env1.mongoListRaw = env2.mongoListRaw)
    (hg : env1.gcsBucket = env2.gcsBucket) (loads : String → Except String Json)
    (outcomes : Nat → EntryOutcome) (tss : Nat → String) (fs : Fs) :
    (backup_all_databases env1 loads outcomes tss fs).1 =
      (backup_all_databases env2 loads outcomes tss fs).1 := by
  have hp : parse_mongo_config env1 loads = parse_mongo_config env2 loads := by
    unfold parse_mongo_config; rw [hm]
  rcases hpp : parse_mongo_config env2 loads with ⟨ml, pe⟩
  have hpp1 : parse_mongo_config env1 loads = (ml, pe) := by rw [hp, hpp]
  cases pe with
  | some err => simp [backup_all_databases, hpp, hpp1]
  | none =>
    by_cases ht : strTruthy env2.gcsBucket = true
    · have ht1 : strTruthy env1.gcsBucket = true := by rw [hg]; exact ht
      have hb : optStr env1.gcsBucket = optStr env2.gcsBucket := by rw [hg]
      have h3 := runBackups_fst_env env1 env2 hg outcomes tss (optStr env2.gcsBucket) ml 0 fs
      rcases hr1 : runBackups env1 outcomes tss (optStr env2.gcsBucket) ml 0 fs
        with ⟨res1, evs1, fs1⟩
      rcases hr2 : runBackups env2 outcomes tss (optStr env2.gcsBucket) ml 0 fs
        with ⟨res2, evs2, fs2⟩
      rw [hr1, hr2] at h3
      simp only at h3
      subst h3
      cases res1 <;> simp [backup_all_databases, hpp, hpp1, ht, ht1, hb, hr1, hr2]
    · have ht1 : ¬ strTruthy env1.gcsBucket = true := by rw [hg]; exact ht
      simp [backup_all_databases, hpp, hpp1, ht, ht1]

theorem backup_ok_config (env : Env) (loads : String → Except String Json)
    (outcomes : Nat → EntryOutcome) (tss : Nat → String) (fs : Fs)
    (raw b : String) (xs : List Json)
    (hraw : env.mongoListRaw = some raw) (hrawne : raw ≠ "")
    (hloads : loads raw = .ok (.arr xs))
    (hb : env.gcsBucket = some b) (hbne : b ≠ "")
    (results : List BResult) (evs : List Event) (fs1 : Fs)
    (hrun : runBackups env outcomes tss b xs 0 fs = (.ok results, evs, fs1)) :
    backup_all_databases env loads outcomes tss fs = (.json results, evs, fs1) := by
  have hparse : parse_mongo_config env loads = (xs, none) := by
    simp [parse_mongo_config, hraw, hloads, hrawne]
  have ht : strTruthy env.gcsBucket = true := by simp [strTruthy, hb, hbne]
  have hopt : optStr env.gcsBucket = b := by simp [optStr, hb]
  simp [backup_all_databases, hparse, ht, hopt, hrun]

theorem backup_err_parse (env : Env) (loads : String → Except String Json)
    (outcomes : Nat → EntryOutcome) (tss : Nat → String) (fs : Fs)
    (ml : List Json) (err : String)
    (hparse : parse_mongo_config env loads = (ml, some err)) :
    backup_all_databases env loads outcomes tss fs =
      (.text err 500, send_slack_notification env err, fs) := by
  simp [backup_all_databases, hparse]

theorem backup_err_bucket (env : Env) (loads : String → Except String Json)
    (outcomes : Nat → EntryOutcome) (tss : Nat → String) (fs : Fs)
    (ml : List Json) (hparse : parse_mongo_config env loads = (ml, none))
    (hg : strTruthy env.gcsBucket = false) :
    backup_all_databases env loads outcomes tss fs =
      (.text "Missing GCS_BUCKET env var" 500,
       send_slack_notification env "Missing GCS_BUCKET env var", fs) := by
  simp [backup_all_databases, hparse, hg]

theorem nameOrDefault_truthy (n : Option Json) (h : pyTruthy n = true) :
    nameOrDefault n = n.getD .null := by
  cases n with
  | none => exact Bool.noConfusion h
  | some j =>
    have hj : j.isTruthy = true := h
    simp [nameOrDefault, hj]

theorem gcsUrl_eq (env : Env) (b : String) (hb : env.gcsBucket = some b)
    (fields : List (String × Json)) (ts : String) :
    gcsUrl env fields ts = "gs://" ++ b ++ "/backups/" ++ entryNameStr fields ++ "/" ++
      generate_backup_filename (entryNameStr fields) ts := by
  unfold gcsUrl blobPath
  rw [hb]
  show "gs://" ++ b ++ "/" ++ ("backups/" ++ entryNameStr fields ++ "/" ++
      generate_backup_filename (entryNameStr fields) ts) = _
  simp only [← String.append_assoc]
  rw [String.append_assoc ("gs://" ++ b) "/" "backups/"]
  rfl

theorem entryResult_props (env : Env) (o : EntryOutcome) (ts : String)
    (fields : List (String × Json)) (b : String) (hb : env.gcsBucket = some b) :
    (entryResult env o ts (.obj fields)).name = nameOrDefault (dictGet fields "name") ∧
    ((entryResult env o ts (.obj fields)).status = "ok" ∨
      (entryResult env o ts (.obj fields)).status = "error" ∨
      (entryResult env o ts (.obj fields)).status = "skipped") ∧
    ((entryResult env o ts (.obj fields)).status = "ok" →
      (entryResult env o ts (.obj fields)).gcs = some ("gs://" ++ b ++ "/backups/" ++
        entryNameStr fields ++ "/" ++ generate_backup_filename (entryNameStr fields) ts)) := by
  by_cases hc : (!(pyTruthy (dictGet fields "name")) || !(pyTruthy (dictGet fields "uri"))) = true
  · refine ⟨by simp [entryResult, hc], by simp [entryResult, hc], ?_⟩
    intro h
    rw [show (entryResult env o ts (.obj fields)).status = "skipped" from by
      simp [entryResult, hc]] at h
    exact absurd h (by decide)
  · have hcf : (!(pyTruthy (dictGet fields "name")) || !(pyTruthy (dictGet fields "uri"))) = false := by
      simpa using hc
    have hname : pyTruthy (dictGet fields "name") = true := by
      rcases Bool.or_eq_false_iff.mp hcf with ⟨h1, _⟩
      simpa using h1
    have hnd : entryNameJson fields = nameOrDefault (dictGet fields "name") := by
      rw [nameOrDefault_truthy (dictGet fields "name") hname]; rfl
    cases hd : o.dump <;> cases hu : o.uploadExn <;>
      refine ⟨by simp [entryResult, hcf, hd, hu, hnd], by simp [entryResult, hcf, hd, hu], ?_⟩ <;>
      intro h <;>
      first
      | exact absurd (show ("error" : String) = "ok" from by
          simpa [entryResult, hcf, hd, hu] using h) (by decide)
      | exact (by simp [entryResult, hcf, hd, hu, gcsUrl_eq env b hb fields ts])

theorem entryResult_error (env : Env) (o : EntryOutcome) (ts : String)
    (fields : List (String × Json))
    (hpass : entryPasses (.obj fields) = true)
    (hfail : o.dump.isOk = false ∨ o.uploadExn.isSome = true) :
    (entryResult env o ts (.obj fields)).status = "error" ∧
    (entryResult env o ts (.obj fields)).reason.isSome = true := by
  have hcf := entryPasses_cond fields hpass
  cases hd : o.dump <;> cases hu : o.uploadExn <;>
    simp_all [entryResult, DumpOutcome.isOk]

theorem backup_obj_results (env : Env) (loads : String → Except String Json)
    (outcomes : Nat → EntryOutcome) (tss : Nat → String) (fs : Fs)
    (raw b : String) (xs : List Json)
    (hraw : env.mongoListRaw = some raw) (hrawne : raw ≠ "")
    (hloads : loads raw = .ok (.arr xs))
    (hb : env.gcsBucket = some b) (hbne : b ≠ "")
    (hobj : ∀ e ∈ xs, e.isObj = true) :
    ∃ evs fs1, backup_all_databases env loads outcomes tss fs =
      (.json (mapIdxFrom (fun j e => entryResult env (outcomes j) (tss j) e) 0 xs),
       evs, fs1) := by
  have hrun1 := runBackups_obj env outcomes tss b xs hobj 0 fs
  rcases hr : runBackups env outcomes tss b xs 0 fs with ⟨res, evs, fs1⟩
  rw [hr] at hrun1
  simp only at hrun1
  subst hrun1
  exact ⟨evs, fs1,
    backup_ok_config env loads outcomes tss fs raw b xs hraw hrawne hloads hb hbne _ evs fs1 hr⟩

/-! Claim theorems. -/

/-- C3: for every dict entry, a GCS upload event can occur in the trace
of process_database_backup only when the mongodump run succeeded; the
uploaded local file is exactly the dump archive path of that entry, and
the mongodump event precedes the upload event in the trace. By
contraposition, a failed or timed-out dump admits no upload attempt. -/
theorem C3_dump_before_upload (env : Env) (o : EntryOutcome) (ts : String)
    (fields : List (String × Json)) (bucket : String) (fs : Fs) (ev : Event)
    (hmem : ev ∈ (process_database_backup env o ts (.obj fields) bucket fs).2.1)
    (hev : ev.isUpload = true) :
    o.dump = DumpOutcome.ok ∧
    ev = Event.gcsUpload bucket (blobPath fields ts) (dumpPath fields ts) ∧
    ∃ rest, (process_database_backup env o ts (.obj fields) bucket fs).2.1 =
      Event.mongodump (entryUriStr fields) (dumpPath fields ts) ::
      Event.gcsUpload bucket (blobPath fields ts) (dumpPath fields ts) :: rest := by
  by_cases hc : (!(pyTruthy (dictGet fields "name")) || !(pyTruthy (dictGet fields "uri"))) = true
  · rw [process_skip_eq env o ts fields bucket fs hc] at hmem
    simp only at hmem
    have hs := send_slack_mem env _ ev hmem
    rw [isSlack_not_upload ev hs] at hev
    exact Bool.noConfusion hev
  · have hcf : (!(pyTruthy (dictGet fields "name")) || !(pyTruthy (dictGet fields "uri"))) = false := by
      simpa using hc
    by_cases hd : o.dump.isOk = true
    · have hdo : o.dump = DumpOutcome.ok := by
        cases hdc : o.dump <;> rw [hdc] at hd <;> first | rfl | exact Bool.noConfusion hd
      obtain ⟨msg, fs1, htr⟩ := process_trace_ok env o ts fields bucket fs hcf hdo
      rw [htr] at hmem
      rcases List.mem_cons.mp hmem with h1 | hmem2
      · rw [h1] at hev; exact absurd hev (by simp [Event.isUpload])
      rcases List.mem_cons.mp hmem2 with h2 | hmem3
      · exact ⟨hdo, h2, ⟨_, htr⟩⟩
      rcases List.mem_append.mp hmem3 with h3 | h4
      · have hs := send_slack_mem env msg ev h3
        rw [isSlack_not_upload ev hs] at hev
        exact Bool.noConfusion hev
      · rw [cleanup_mem _ _ _ ev h4] at hev
        exact absurd hev (by simp [Event.isUpload])
    · have hdf : o.dump.isOk = false := by simpa using hd
      obtain ⟨msg, fs1, htr⟩ := process_trace_notok env o ts fields bucket fs hcf hdf
      rw [htr] at hmem
      rcases List.mem_cons.mp hmem with h1 | hmem2
      · rw [h1] at hev; exact absurd hev (by simp [Event.isUpload])
      rcases List.mem_append.mp hmem2 with h3 | h4
      · have hs := send_slack_mem env msg ev h3
        rw [isSlack_not_upload ev hs] at hev
        exact Bool.noConfusion hev
      · rw [cleanup_mem _ _ _ ev h4] at hev
        exact absurd hev (by simp [Event.isUpload])

/-- Witness for C3 at a concrete successful backup. -/
theorem C3_dump_before_upload_witness :
    wOutcome.dump = DumpOutcome.ok ∧
    Event.gcsUpload "bkt" (blobPath wEntryFields "t") (dumpPath wEntryFields "t") =
      Event.gcsUpload "bkt" (blobPath wEntryFields "t") (dumpPath wEntryFields "t") ∧
    ∃ rest, (process_database_backup wEnvA wOutcome "t" (.obj wEntryFields) "bkt" wFs).2.1 =
      Event.mongodump (entryUriStr wEntryFields) (dumpPath wEntryFields "t") ::
      Event.gcsUpload "bkt" (blobPath wEntryFields "t") (dumpPath wEntryFields "t") :: rest :=
  C3_dump_before_upload wEnvA wOutcome "t" wEntryFields "bkt" wFs
    (Event.gcsUpload "bkt" (blobPath wEntryFields "t") (dumpPath wEntryFields "t"))
    (by
      have h : (process_database_backup wEnvA wOutcome "t" (.obj wEntryFields) "bkt" wFs).2.1 =
          [Event.mongodump (entryUriStr wEntryFields) (dumpPath wEntryFields "t"),
           Event.gcsUpload "bkt" (blobPath wEntryFields "t") (dumpPath wEntryFields "t"),
           Event.fileRemove (dumpPath wEntryFields "t")] := rfl
      rw [h]
      exact List.mem_cons_of_mem _ (List.mem_cons_self _ _))
    rfl

/-- C8: a dict entry whose name or uri key is absent or falsy produces
the skipped result with name-or-default, reason missing name or uri,
performs only the notification side effect, leaves the filesystem
unchanged, and attempts neither a dump nor an upload. -/
theorem C8_skip_semantics (env : Env) (o : EntryOutcome) (ts : String)
    (fields : List (String × Json)) (bucket : String) (fs : Fs)
    (h : (pyTruthy (dictGet fields "name") && pyTruthy (dictGet fields "uri")) = false) :
    process_database_backup env o ts (.obj fields) bucket fs =
      (.ok ⟨nameOrDefault (dictGet fields "name"), "skipped",
            some (.str "missing name or uri"), none⟩,
       send_slack_notification env (missingEntryMsg (.obj fields)), fs) ∧
    ∀ ev ∈ (process_database_backup env o ts (.obj fields) bucket fs).2.1,
      ev.isMongodump = false ∧ ev.isUpload = false := by
  have hc : (!(pyTruthy (dictGet fields "name")) || !(pyTruthy (dictGet fields "uri"))) = true := by
    cases ha : pyTruthy (dictGet fields "name") <;>
      cases hb2 : pyTruthy (dictGet fields "uri") <;> simp_all
  refine ⟨process_skip_eq env o ts fields bucket fs hc, ?_⟩
  intro ev hev
  rw [process_skip_eq env o ts fields bucket fs hc] at hev
  simp only at hev
  have hs := send_slack_mem env _ ev hev
  exact ⟨isSlack_not_mongodump ev hs, isSlack_not_upload ev hs⟩

/-- Witness for C8 at a concrete entry with a missing uri. -/
theorem C8_skip_semantics_witness :
    process_database_backup wEnvA wOutcome "t" (.obj [("name", Json.str "db1")]) "bkt" wFs =
      (.ok ⟨nameOrDefault (dictGet [("name", Json.str "db1")] "name"), "skipped",
            some (.str "missing name or uri"), none⟩,
       send_slack_notification wEnvA (missingEntryMsg (.obj [("name", Json.str "db1")])), wFs) ∧
    ∀ ev ∈ (process_database_backup wEnvA wOutcome "t"
        (.obj [("name", Json.str "db1")]) "bkt" wFs).2.1,
      ev.isMongodump = false ∧ ev.isUpload = false :=
  C8_skip_semantics wEnvA wOutcome "t" [("name", Json.str "db1")] "bkt" wFs rfl

/-- C9 counterexample: when the os.remove call of the cleanup raises a
caught OSError after a successful dump and upload, the temporary dump
file is still present once processing finishes, so removal on every
path is not guaranteed by the program. -/
theorem C9_counterexample :
    ((process_database_backup wEnvA wOutcomeRemoveFails "t" (.obj wEntryFields)
        "bkt" wFs).2.2).pathExists (dumpPath wEntryFields "t") = true := rfl

/-- C9 amended: for every dict entry passing the name and uri check,
cleanup_temp_file runs in the finally block on every path through the
try/except (success, dump failure, upload failure, caught exception):
the final filesystem is the cleanup of an intermediate one; and
whenever the os.remove call does not raise OSError, the temporary dump
file is absent once processing finishes. -/
theorem C9_amended_cleanup (env : Env) (o : EntryOutcome) (ts : String)
    (fields : List (String × Json)) (bucket : String) (fs : Fs)
    (h : (pyTruthy (dictGet fields "name") && pyTruthy (dictGet fields "uri")) = true) :
    (∃ fs1, (process_database_backup env o ts (.obj fields) bucket fs).2.2 =
      (cleanup_temp_file o.removeRaises (dumpPath fields ts) fs1).2) ∧
    (o.removeRaises = false →
      ((process_database_backup env o ts (.obj fields) bucket fs).2.2).pathExists
        (dumpPath fields ts) = false) := by
  have hc : (!(pyTruthy (dictGet fields "name")) || !(pyTruthy (dictGet fields "uri"))) = false := by
    rcases Bool.and_eq_true_iff.mp h with ⟨h1, h2⟩
    simp [h1, h2]
  exact ⟨process_pass_cleanup_runs env o ts fields bucket fs hc,
    fun hrm => process_pass_fs env o ts fields bucket fs hc hrm⟩

/-- Witness for the amended C9 at a concrete successful backup whose
cleanup removal succeeds. -/
theorem C9_amended_cleanup_witness :
    (∃ fs1, (process_database_backup wEnvA wOutcome "t" (.obj wEntryFields) "bkt" wFs).2.2 =
      (cleanup_temp_file wOutcome.removeRaises (dumpPath wEntryFields "t") fs1).2) ∧
    (wOutcome.removeRaises = false →
      ((process_database_backup wEnvA wOutcome "t" (.obj wEntryFields) "bkt" wFs).2.2).pathExists
        (dumpPath wEntryFields "t") = false) :=
  C9_amended_cleanup wEnvA wOutcome "t" wEntryFields "bkt" wFs rfl

/-- C5: the webhook is optional and non-interfering. With the webhook
unset, send_slack_notification performs no post and returns normally;
and two environments that agree on MONGO_LIST and GCS_BUCKET but differ
arbitrarily in webhook configuration and in whether notification posts
fail produce identical endpoint responses. -/
theorem C5_webhook_noninterference (env1 env2 : Env)
    (loads : String → Except String Json) (outcomes : Nat → EntryOutcome)
    (tss : Nat → String) (fs : Fs) (msg : String)
    (hm : env1.mongoListRaw = env2.mongoListRaw)
    (hg : env1.gcsBucket = env2.gcsBucket) :
    (strTruthy env1.slackWebhookUrl = false → send_slack_notification env1 msg = []) ∧
    (backup_all_databases env1 loads outcomes tss fs).1 =
      (backup_all_databases env2 loads outcomes tss fs).1 :=
  ⟨fun h => send_slack_falsy env1 msg h,
   backup_fst_env env1 env2 hm hg loads outcomes tss fs⟩

/-- Witness for C5: no-webhook environment versus an environment with a
webhook whose every post fails; same response. -/
theorem C5_webhook_noninterference_witness :
    send_slack_notification wEnvA "m" = [] ∧
    (backup_all_databases wEnvA wLoads wOutcomes wTss wFs).1 =
      (backup_all_databases wEnvB wLoads wOutcomes wTss wFs).1 :=
  ⟨(C5_webhook_noninterference wEnvA wEnvB wLoads wOutcomes wTss wFs "m" rfl rfl).1 rfl,
   (C5_webhook_noninterference wEnvA wEnvB wLoads wOutcomes wTss wFs "m" rfl rfl).2⟩

/-- C6: with the webhook configured, processing any dict entry attempts
exactly one Slack notification (covering the skipped, dump-failure,
upload-failure, success, and unexpected-error outcomes), and every
plain-text configuration-error response of the endpoint attempts exactly
one Slack notification. -/
theorem C6_notification_per_outcome (env : Env)
    (hw : strTruthy env.slackWebhookUrl = true) :
    (∀ (o : EntryOutcome) (ts : String) (fields : List (String × Json))
        (bucket : String) (fs : Fs),
      (process_database_backup env o ts (.obj fields) bucket fs).2.1.countP
        Event.isSlack = 1) ∧
    (∀ (loads : String → Except String Json) (outcomes : Nat → EntryOutcome)
        (tss : Nat → String) (fs : Fs) (body : String) (code : Nat),
      (backup_all_databases env loads outcomes tss fs).1 = .text body code →
      (backup_all_databases env loads outcomes tss fs).2.1.countP Event.isSlack = 1) := by
  constructor
  · intro o ts fields bucket fs
    exact process_obj_countP_slack env o ts fields bucket fs hw
  · intro loads outcomes tss fs body code hresp
    rcases hpp : parse_mongo_config env loads with ⟨ml, pe⟩
    cases pe with
    | some err =>
      rw [backup_err_parse env loads outcomes tss fs ml err hpp]
      exact send_slack_countP_slack env err hw
    | none =>
      by_cases hg : strTruthy env.gcsBucket = true
      · exfalso
        rcases hr : runBackups env outcomes tss (optStr env.gcsBucket) ml 0 fs
          with ⟨res, evs, fs1⟩
        cases res with
        | ok results =>
          have hb : (backup_all_databases env loads outcomes tss fs).1 = .json results := by
            simp [backup_all_databases, hpp, hg, hr]
          rw [hb] at hresp
          exact HttpResponse.noConfusion hresp
        | error m =>
          have hb : (backup_all_databases env loads outcomes tss fs).1 =
              .internalError m := by
            simp [backup_all_databases, hpp, hg, hr]
          rw [hb] at hresp
          exact HttpResponse.noConfusion hresp
      · have hg2 : strTruthy env.gcsBucket = false := by simpa using hg
        rw [backup_err_bucket env loads outcomes tss fs ml hpp hg2]
        exact send_slack_countP_slack env _ hw

/-- Witness for C6: a webhook-configured environment posts exactly once
for a processed entry, and exactly once for a missing MONGO_LIST. -/
theorem C6_notification_per_outcome_witness :
    (process_database_backup wEnvC wOutcome "t" (.obj wEntryFields) "bkt" wFs).2.1.countP
      Event.isSlack = 1 ∧
    (backup_all_databases wEnvC wLoads wOutcomes wTss wFs).2.1.countP Event.isSlack = 1 :=
  ⟨(C6_notification_per_outcome wEnvC rfl).1 wOutcome "t" wEntryFields "bkt" wFs,
   (C6_notification_per_outcome wEnvC rfl).2 wLoads wOutcomes wTss wFs
     "Missing MONGO_LIST env var" 500 rfl⟩

/-- C7: when parsing MONGO_LIST fails (missing, invalid JSON, or not an
array) or GCS_BUCKET is falsy, the endpoint returns a plain-text 500
response, the filesystem is untouched, and the trace contains no dump
and no upload attempt (only Slack notification events). -/
theorem C7_config_error_aborts (env : Env) (loads : String → Except String Json)
    (outcomes : Nat → EntryOutcome) (tss : Nat → String) (fs : Fs)
    (h : (parse_mongo_config env loads).2 ≠ none ∨ strTruthy env.gcsBucket = false) :
    ∃ msg, (backup_all_databases env loads outcomes tss fs).1 = .text msg 500 ∧
      (backup_all_databases env loads outcomes tss fs).2.2 = fs ∧
      ∀ ev ∈ (backup_all_databases env loads outcomes tss fs).2.1,
        ev.isMongodump = false ∧ ev.isUpload = false ∧ ev.isSlack = true := by
  rcases hpp : parse_mongo_config env loads with ⟨ml, pe⟩
  cases pe with
  | some err =>
    have hb := backup_err_parse env loads outcomes tss fs ml err hpp
    refine ⟨err, by rw [hb], by rw [hb], ?_⟩
    intro ev hev
    rw [hb] at hev
    simp only at hev
    have hs := send_slack_mem env err ev hev
    exact ⟨isSlack_not_mongodump ev hs, isSlack_not_upload ev hs, hs⟩
  | none =>
    have hg : strTruthy env.gcsBucket = false := by
      rcases h with h1 | h2
      · rw [hpp] at h1; exact absurd rfl h1
      · exact h2
    have hb := backup_err_bucket env loads outcomes tss fs ml hpp hg
    refine ⟨_, by rw [hb], by rw [hb], ?_⟩
    intro ev hev
    rw [hb] at hev
    simp only at hev
    have hs := send_slack_mem env _ ev hev
    exact ⟨isSlack_not_mongodump ev hs, isSlack_not_upload ev hs, hs⟩

/-- Witness for C7 at a concrete environment with MONGO_LIST unset. -/
theorem C7_config_error_aborts_witness :
    ∃ msg, (backup_all_databases wEnvNoList wLoads wOutcomes wTss wFs).1 = .text msg 500 ∧
      (backup_all_databases wEnvNoList wLoads wOutcomes wTss wFs).2.2 = wFs ∧
      ∀ ev ∈ (backup_all_databases wEnvNoList wLoads wOutcomes wTss wFs).2.1,
        ev.isMongodump = false ∧ ev.isUpload = false ∧ ev.isSlack = true :=
  C7_config_error_aborts wEnvNoList wLoads wOutcomes wTss wFs
    (Or.inl (fun hcontra => Option.noConfusion hcontra))

/-- C1 counterexample: with MONGO_LIST a valid JSON array whose single
entry is the number 1 and GCS_BUCKET set, the endpoint does not return a
JSON array of results: reading the entry keys raises AttributeError and
the endpoint aborts with an uncaught-exception 500 page. -/
theorem C1_counterexample :
    (backup_all_databases wEnvA wLoadsNonDict wOutcomes wTss wFs).1 =
      HttpResponse.internalError attributeErrorMsg ∧
    ∀ results, (backup_all_databases wEnvA wLoadsNonDict wOutcomes wTss wFs).1 ≠
      HttpResponse.json results := by
  have h0 : (backup_all_databases wEnvA wLoadsNonDict wOutcomes wTss wFs).1 =
      HttpResponse.internalError attributeErrorMsg := rfl
  refine ⟨h0, ?_⟩
  intro results h
  rw [h0] at h
  exact HttpResponse.noConfusion h

/-- C1 amended: when MONGO_LIST parses to a JSON array, GCS_BUCKET is
set and truthy, and additionally every entry of the array is a JSON
object, the endpoint returns a JSON array with exactly one result per
entry in order; every result has the entry name (or default) and a
status among ok, error and skipped, and every ok result carries the
gs URL built from the bucket, the entry name and that entry generated
filename. -/
theorem C1_amended_results (env : Env) (loads : String → Except String Json)
    (outcomes : Nat → EntryOutcome) (tss : Nat → String) (fs : Fs)
    (raw b : String) (xs : List Json)
    (hraw : env.mongoListRaw = some raw) (hrawne : raw ≠ "")
    (hloads : loads raw = .ok (.arr xs))
    (hb : env.gcsBucket = some b) (hbne : b ≠ "")
    (hobj : ∀ e ∈ xs, e.isObj = true) :
    ∃ results, (backup_all_databases env loads outcomes tss fs).1 = .json results ∧
      results.length = xs.length ∧
      ∀ (j : Nat) (hj : j < results.length) (hj2 : j < xs.length),
        (results.get ⟨j, hj⟩).name =
          nameOrDefault (dictGet (entryFields (xs.get ⟨j, hj2⟩)) "name") ∧
        ((results.get ⟨j, hj⟩).status = "ok" ∨ (results.get ⟨j, hj⟩).status = "error" ∨
          (results.get ⟨j, hj⟩).status = "skipped") ∧
        ((results.get ⟨j, hj⟩).status = "ok" →
          (results.get ⟨j, hj⟩).gcs = some ("gs://" ++ b ++ "/backups/" ++
            entryNameStr (entryFields (xs.get ⟨j, hj2⟩)) ++ "/" ++
            generate_backup_filename (entryNameStr (entryFields (xs.get ⟨j, hj2⟩))) (tss j))) := by
  obtain ⟨evs, fs1, hback⟩ := backup_obj_results env loads outcomes tss fs raw b xs
    hraw hrawne hloads hb hbne hobj
  refine ⟨_, by rw [hback], mapIdxFrom_length _ 0 xs, ?_⟩
  intro j hj hj2
  have hlen : j < (mapIdxFrom (fun j e => entryResult env (outcomes j) (tss j) e) 0 xs).length := by
    rw [mapIdxFrom_length]; exact hj2
  rw [mapIdxFrom_get _ 0 xs j hj2 hlen, Nat.zero_add]
  obtain ⟨fields, hfe⟩ :=
    isObj_exists (xs.get ⟨j, hj2⟩) (hobj _ (List.get_mem xs j hj2))
  rw [hfe]
  simp only [entryFields]
  exact entryResult_props env (outcomes j) (tss j) fields b hb

/-- Witness for the amended C1 at one well-formed entry. -/
theorem C1_amended_results_witness :
    ∃ results, (backup_all_databases wEnvA wLoads wOutcomes wTss wFs).1 = .json results ∧
      results.length = ([Json.obj wEntryFields] : List Json).length ∧
      ∀ (j : Nat) (hj : j < results.length)
          (hj2 : j < ([Json.obj wEntryFields] : List Json).length),
        (results.get ⟨j, hj⟩).name =
          nameOrDefault (dictGet (entryFields (([Json.obj wEntryFields] : List Json).get ⟨j, hj2⟩)) "name") ∧
        ((results.get ⟨j, hj⟩).status = "ok" ∨ (results.get ⟨j, hj⟩).status = "error" ∨
          (results.get ⟨j, hj⟩).status = "skipped") ∧
        ((results.get ⟨j, hj⟩).status = "ok" →
          (results.get ⟨j, hj⟩).gcs = some ("gs://" ++ "bkt" ++ "/backups/" ++
            entryNameStr (entryFields (([Json.obj wEntryFields] : List Json).get ⟨j, hj2⟩)) ++ "/" ++
            generate_backup_filename
              (entryNameStr (entryFields (([Json.obj wEntryFields] : List Json).get ⟨j, hj2⟩)))
              (wTss j))) :=
  C1_amended_results wEnvA wLoads wOutcomes wTss wFs "x" "bkt" [Json.obj wEntryFields]
    rfl (by decide) rfl rfl (by decide)
    (fun e he => by rw [List.mem_singleton.mp he]; rfl)

/-- C2 counterexample: a non-object entry in the middle of the list
raises an uncaught AttributeError: the endpoint aborts and the later
well-formed entry is never processed, so one entry can prevent the
others from reporting results. -/
theorem C2_counterexample :
    (backup_all_databases wEnvA wLoadsMixed wOutcomes wTss wFs).1 =
      HttpResponse.internalError attributeErrorMsg ∧
    ∀ results, (backup_all_databases wEnvA wLoadsMixed wOutcomes wTss wFs).1 ≠
      HttpResponse.json results := by
  have h0 : (backup_all_databases wEnvA wLoadsMixed wOutcomes wTss wFs).1 =
      HttpResponse.internalError attributeErrorMsg := rfl
  refine ⟨h0, ?_⟩
  intro results h
  rw [h0] at h
  exact HttpResponse.noConfusion h

/-- C2 amended: when every configured entry is a JSON object, all
entries are processed and reported: the endpoint returns one result per
entry, each result at position j is a function of entry j, outcome j and
timestamp j alone (so no entry failure can change another entry result
or abort the loop), and a passing entry whose dump or upload fails
reports status error with a reason. -/
theorem C2_amended_isolation (env : Env) (loads : String → Except String Json)
    (outcomes : Nat → EntryOutcome) (tss : Nat → String) (fs : Fs)
    (raw b : String) (xs : List Json)
    (hraw : env.mongoListRaw = some raw) (hrawne : raw ≠ "")
    (hloads : loads raw = .ok (.arr xs))
    (hb : env.gcsBucket = some b) (hbne : b ≠ "")
    (hobj : ∀ e ∈ xs, e.isObj = true) :
    ∃ results, (backup_all_databases env loads outcomes tss fs).1 = .json results ∧
      results.length = xs.length ∧
      ∀ (j : Nat) (hj : j < results.length) (hj2 : j < xs.length),
        results.get ⟨j, hj⟩ = entryResult env (outcomes j) (tss j) (xs.get ⟨j, hj2⟩) ∧
        (entryPasses (xs.get ⟨j, hj2⟩) = true →
          ((outcomes j).dump.isOk = false ∨ (outcomes j).uploadExn.isSome = true) →
          (results.get ⟨j, hj⟩).status = "error" ∧
          (results.get ⟨j, hj⟩).reason.isSome = true) := by
  obtain ⟨evs, fs1, hback⟩ := backup_obj_results env loads outcomes tss fs raw b xs
    hraw hrawne hloads hb hbne hobj
  refine ⟨_, by rw [hback], mapIdxFrom_length _ 0 xs, ?_⟩
  intro j hj hj2
  have hlen : j < (mapIdxFrom (fun j e => entryResult env (outcomes j) (tss j) e) 0 xs).length := by
    rw [mapIdxFrom_length]; exact hj2
  rw [mapIdxFrom_get _ 0 xs j hj2 hlen, Nat.zero_add]
  refine ⟨rfl, ?_⟩
  intro hpass hfail
  obtain ⟨fields, hfe⟩ :=
    isObj_exists (xs.get ⟨j, hj2⟩) (hobj _ (List.get_mem xs j hj2))
  rw [hfe] at hpass ⊢
  exact entryResult_error env (outcomes j) (tss j) fields hpass hfail

/-- Witness for the amended C2 at one well-formed entry whose dump
fails. -/
theorem C2_amended_isolation_witness :
    ∃ results, (backup_all_databases wEnvA wLoads wOutcomesFailDump wTss wFs).1 =
        .json results ∧
      results.length = ([Json.obj wEntryFields] : List Json).length ∧
      ∀ (j : Nat) (hj : j < results.length)
          (hj2 : j < ([Json.obj wEntryFields] : List Json).length),
        results.get ⟨j, hj⟩ = entryResult wEnvA (wOutcomesFailDump j) (wTss j)
          (([Json.obj wEntryFields] : List Json).get ⟨j, hj2⟩) ∧
        (entryPasses (([Json.obj wEntryFields] : List Json).get ⟨j, hj2⟩) = true →
          ((wOutcomesFailDump j).dump.isOk = false ∨
            (wOutcomesFailDump j).uploadExn.isSome = true) →
          (results.get ⟨j, hj⟩).status = "error" ∧
          (results.get ⟨j, hj⟩).reason.isSome = true) :=
  C2_amended_isolation wEnvA wLoads wOutcomesFailDump wTss wFs "x" "bkt"
    [Json.obj wEntryFields] rfl (by decide) rfl rfl (by decide)
    (fun e he => by rw [List.mem_singleton.mp he]; rfl)

/-- C4 counterexample: a configured entry with no keys is parsed into
the list (length 1), yet the endpoint trace contains no mongodump
invocation at all: skipped entries are never dumped. -/
theorem C4_counterexample :
    (parse_mongo_config wEnvA wLoadsEmptyObj).1.length = 1 ∧
    (backup_all_databases wEnvA wLoadsEmptyObj wOutcomes wTss wFs).2.1.filter
      Event.isMongodump = [] :=
  ⟨rfl, rfl⟩

/-- C4 amended: under a well-formed configuration whose entries are all
JSON objects, the mongodump invocations of the endpoint are exactly one
per entry with truthy name and uri, in list order, each run with the
uri and dump path of its own entry, and none for an entry that fails
the name/uri check; their total count is the number of passing
entries. -/
theorem C4_amended_mongodump_per_entry (env : Env) (loads : String → Except String Json)
    (outcomes : Nat → EntryOutcome) (tss : Nat → String) (fs : Fs)
    (raw b : String) (xs : List Json)
    (hraw : env.mongoListRaw = some raw) (hrawne : raw ≠ "")
    (hloads : loads raw = .ok (.arr xs))
    (hb : env.gcsBucket = some b) (hbne : b ≠ "")
    (hobj : ∀ e ∈ xs, e.isObj = true) :
    (backup_all_databases env loads outcomes tss fs).2.1.filter Event.isMongodump =
      dumpEventsIdx tss 0 xs ∧
    ((backup_all_databases env loads outcomes tss fs).2.1.filter
      Event.isMongodump).length = xs.countP entryPasses := by
  have hrun1 := runBackups_obj env outcomes tss b xs hobj 0 fs
  have hflt := runBackups_filter_mongodump env outcomes tss b xs hobj 0 fs
  rcases hr : runBackups env outcomes tss b xs 0 fs with ⟨res, evs, fs1⟩
  rw [hr] at hrun1 hflt
  simp only at hrun1 hflt
  subst hrun1
  have hback := backup_ok_config env loads outcomes tss fs raw b xs hraw hrawne hloads
    hb hbne _ evs fs1 hr
  rw [hback]
  refine ⟨hflt, ?_⟩
  rw [show ((HttpResponse.json (mapIdxFrom (fun j e => entryResult env (outcomes j) (tss j) e) 0 xs),
    evs, fs1) : HttpResponse × List Event × Fs).2.1 = evs from rfl, hflt, dumpEventsIdx_length]

/-- Witness for the amended C4 at a mixed list: a passing entry
followed by a skipped one. -/
theorem C4_amended_mongodump_per_entry_witness :
    (backup_all_databases wEnvA wLoadsPassSkip wOutcomes wTss wFs).2.1.filter
      Event.isMongodump =
      dumpEventsIdx wTss 0 [Json.obj wEntryFields, Json.obj []] ∧
    ((backup_all_databases wEnvA wLoadsPassSkip wOutcomes wTss wFs).2.1.filter
      Event.isMongodump).length =
      ([Json.obj wEntryFields, Json.obj []] : List Json).countP entryPasses :=
  C4_amended_mongodump_per_entry wEnvA wLoadsPassSkip wOutcomes wTss wFs "x" "bkt"
    [Json.obj wEntryFields, Json.obj []] rfl (by decide) rfl rfl (by decide)
    (fun e he => by
      rcases List.mem_cons.mp he with h1 | h2
      · rw [h1]; rfl
      · rw [List.mem_singleton.mp h2]; rfl)

end MongoBackups
